import Mathlib

/-!
Shallow embedding of `src/python/vscode_execute.py` (the VSCode-Unreal-Python
execution bridge) and verification of its specified properties.

The Python module is string manipulation plus mutation of a process-global
namespace and of the `unreal` module's three logging slots.  The embedding
models:

* Python strings as `String` / `List Char`;
* the pieces of the standard library the module uses (`str.lower`,
  `str.isdigit`, `str.strip`, `str.replace(.., .., 1)`, `str.split(",", 2)`,
  the `in` substring test, and the specific regular expression
  `file ".*", line \d*, in ` used with `re.findall`) as executable functions;
* the shared exec namespace (a Python dict) as an association list;
* the observable effects of an invocation (messages passed to
  `unreal.log_error`, files read and written) as explicit state;
* the behaviour of `exec(compile(code, filename, "exec"), g)` — which cannot
  be embedded — as an abstract `Script : PyNamespace → ExecResult`, whose
  result distinguishes exceptions that are subclasses of `Exception` (caught
  by the `except Exception` clause) from those deriving only from
  `BaseException` such as `SystemExit` and `KeyboardInterrupt` (not caught);
* the `unreal` module's reassignable logging slots and the
  `UnrealLogRedirectDebugging` context manager.
-/

set_option linter.unusedVariables false

namespace VscodeExecute

/-! ## Python string primitives used by the module -/

/-- Models Python `str.lower` on one character (ASCII range; the characters
the module lowercases before regex matching). -/
def pyLowerChar (c : Char) : Char :=
  if 65 ≤ c.toNat ∧ c.toNat ≤ 90 then Char.ofNat (c.toNat + 32) else c

/-- Models Python `str.isdigit` / the regex class `\d` on one ASCII character. -/
def pyIsDigit (c : Char) : Bool := 48 ≤ c.toNat && c.toNat ≤ 57

/-- Characters removed by Python `str.strip()` with no argument. -/
def pyIsSpace (c : Char) : Bool :=
  c = ' ' || c = '\t' || c = '\n' || c = '\r' || c = '\x0b' || c = '\x0c'

/-- Models Python `str.strip()`: drop leading and trailing whitespace. -/
def pyStripChars (cs : List Char) : List Char :=
  ((cs.dropWhile pyIsSpace).reverse.dropWhile pyIsSpace).reverse

/-- Models Python `line.replace('"', "", 1)`: remove the first `"` anywhere
in the string, if one exists. -/
def removeFirstQuote : List Char → List Char
  | [] => []
  | c :: cs => if c = '"' then cs else c :: removeFirstQuote cs

/-- Models the Python substring test `pat in s`. -/
def containsSub (pat : List Char) : List Char → Bool
  | [] => pat.isEmpty
  | c :: cs => pat.isPrefixOf (c :: cs) || containsSub pat cs

/-- String-level wrapper for the Python substring test `pat in s`. -/
def strContains (pat s : String) : Bool := containsSub pat.data s.data

/-! ## The regular expression `file ".*", line \d*, in `

`execute_code` tests `re.findall(r'file ".*", line \d*, in ', line.lower())`
for truthiness, i.e. whether the pattern matches anywhere in the lowered
line.  `.` does not match a newline (no DOTALL flag). -/

/-- Match the pattern tail `", line \d*, in ` at the current position. -/
def closePart (cs : List Char) : Bool :=
  "\", line ".data.isPrefixOf cs &&
    ", in ".data.isPrefixOf ((cs.drop 8).dropWhile pyIsDigit)

/-- Match `.*", line \d*, in ` at the current position: extend `.*` over
non-newline characters until the pattern tail matches. -/
def matchMid : List Char → Bool
  | [] => closePart []
  | c :: cs => closePart (c :: cs) || (c != '\n' && matchMid cs)

/-- Match the full pattern `file ".*", line \d*, in ` at the current position. -/
def matchHere (cs : List Char) : Bool :=
  "file \"".data.isPrefixOf cs && matchMid (cs.drop 6)

/-- Does the pattern match at some position of the string? -/
def regexScan : List Char → Bool
  | [] => matchHere []
  | c :: cs => matchHere (c :: cs) || regexScan cs

/-- Models truthiness of
`re.findall(r'file ".*", line \d*, in ', line.lower())`. -/
def frameRegexSearch (line : List Char) : Bool := regexScan (line.map pyLowerChar)

/-! ## `execute_code`'s traceback reformatting loop -/

/-- One step of Python `str.split(",")`: the part before the first comma,
and the rest after it when a comma exists. -/
def breakComma : List Char → List Char × Option (List Char)
  | [] => ([], none)
  | c :: cs =>
      if c = ',' then ([], some cs)
      else
        let r := breakComma cs
        (c :: r.1, r.2)

/-- Models Python `line.split(",", 2)` (at most two splits, 1–3 parts). -/
def splitComma2 (cs : List Char) : List (List Char) :=
  match breakComma cs with
  | (a, none) => [a]
  | (a, some r) =>
      match breakComma r with
      | (b, none) => [a, b]
      | (b, some r2) => [a, b, r2]

/-- Models the frame-header rewrite inside `execute_code`'s loop:

    components = line.split(",", 2)
    line_number = "".join(x for x in components[1] if x.isdigit())
    components[0] = f'"{components[0][:-1]}:{line_number}"'
    line = ",".join(components)
-/
def rewriteHeader (cs : List Char) : List Char :=
  let comps := splitComma2 cs
  let lineNumber := (comps.getD 1 []).filter pyIsDigit
  let comp0 := '"' :: ((comps.getD 0 []).dropLast ++ ':' :: lineNumber ++ ['"'])
  List.intercalate [','] (comp0 :: comps.drop 1)

/-- The loop body after the skip test: rewrite the line when the frame-header
regex matches, then remove the first double quote. -/
def rewriteLineChars (cs : List Char) : List Char :=
  removeFirstQuote (if frameRegexSearch cs then rewriteHeader cs else cs)

/-- Full loop body for one entry of the formatted traceback: `none` when the
line contains `execute_code` and is skipped (`continue`). -/
def processLineChars (cs : List Char) : Option (List Char) :=
  if containsSub "execute_code".data cs then none
  else some (rewriteLineChars cs)

/-- String-level wrapper for the rewrite of one retained line. -/
def rewriteLine (s : String) : String := ⟨rewriteLineChars s.data⟩

/-- String-level wrapper for the full loop body on one line. -/
def processLine (s : String) : Option String :=
  (processLineChars s.data).map (fun cs => String.mk cs)

/-- Models `traceback_message = "".join(traceback_lines).strip()` applied to
the processed entries of `traceback.format_exception(..)`. -/
def formatTraceback (tb : List String) : String :=
  ⟨pyStripChars (((tb.map String.data).filterMap processLineChars).flatten)⟩

/-! ## The shared exec namespace (a Python dict) -/

/-- Values stored in the shared namespace (only the shapes the module itself
stores: strings, booleans, and the `__builtins__` module object). -/
inductive PyVal
  | str (s : String)
  | pybool (b : Bool)
  | builtins
deriving DecidableEq

/-- A Python dict used as an exec namespace, modelled by its lookup
behaviour as an association list. -/
abbrev PyNamespace := List (String × PyVal)

/-- Dict item lookup `ns[k]` / `ns.get(k)`. -/
def nsLookup (ns : PyNamespace) (k : String) : Option PyVal :=
  (ns.find? (fun p => p.1 == k)).map (fun p => p.2)

/-- Dict item assignment `ns[k] = v`. -/
def nsSet (ns : PyNamespace) (k : String) (v : PyVal) : PyNamespace :=
  (k, v) :: ns.filter (fun p => p.1 != k)

/-- Dict removal `ns.pop(k)` (only called when the key is present). -/
def nsPop (ns : PyNamespace) (k : String) : PyNamespace :=
  ns.filter (fun p => p.1 != k)

/-- Dict membership test `k in ns`. -/
def nsContains (ns : PyNamespace) (k : String) : Bool :=
  ns.any (fun p => p.1 == k)

/-! ## Execution model -/

/-- Whether a raised Python exception object is an instance of `Exception`
(caught by `except Exception`) or only of `BaseException` (such as
`SystemExit` and `KeyboardInterrupt`, not caught). -/
inductive ExnKind
  | exceptionSub
  | baseOnly
deriving DecidableEq

/-- A raised exception: its class kind and the entries that
`traceback.format_exception` produces for it (one string per traceback
entry; a frame's header line and source line form a single entry). -/
structure RaisedExn where
  kind : ExnKind
  traceback : List String
deriving DecidableEq

/-- Result of `exec(compile(code, filename, "exec"), g)`: the namespace after
the (possibly partial) execution, and the raised exception if any. -/
inductive ExecResult
  | ok (ns : PyNamespace)
  | raised (ns : PyNamespace) (e : RaisedExn)
deriving DecidableEq

/-- The behaviour of one user script (a `code`, `filename` pair) under
`exec(compile(..))` against a given namespace.  `exec` cannot be embedded,
so it is the abstract parameter of the model. -/
abbrev Script := PyNamespace → ExecResult

/-- Observable process state threaded through the module's functions:
the `globals()["__VsCodeVariables__"]` entry (absent until first use), the
messages passed to `unreal.log_error`, and the files this module's own code
reads and writes. -/
structure HostState where
  vsCodeVars : Option PyNamespace
  errorLog : List String
  reads : List String
  writes : List String
deriving DecidableEq

/-- Process state before the module has run anything. -/
def initState : HostState := ⟨none, [], [], []⟩

/-- Models `get_exec_globals()`: lazily create
`globals()["__VsCodeVariables__"]` on first use, then return it. -/
def get_exec_globals (st : HostState) : HostState × PyNamespace :=
  match st.vsCodeVars with
  | some ns => (st, ns)
  | none =>
      let ns : PyNamespace :=
        [("__builtins__", .builtins), ("__IsVsCodeExec__", .pybool true)]
      ({ st with vsCodeVars := some ns }, ns)

/-- The namespace a call to `get_exec_globals()` returns in state `st`. -/
def currentGlobals (st : HostState) : PyNamespace := (get_exec_globals st).2

/-- Models `execute_code(code, filename, is_vscode_debugging)`.  The
`(code, filename)` pair enters as the abstract `script`.  Returns the new
state and, when the raised exception is not an `Exception` instance, the
exception escaping to the caller.  Because `exec` mutates the shared dict in
place, the post-execution namespace is stored back in every case. -/
def execute_code (st : HostState) (script : Script) (is_vscode_debugging : Bool) :
    HostState × Option RaisedExn :=
  let stns := get_exec_globals st
  match script stns.2 with
  | .ok ns2 => ({ stns.1 with vsCodeVars := some ns2 }, none)
  | .raised ns2 e =>
      let st2 := { stns.1 with vsCodeVars := some ns2 }
      match e.kind with
      | .exceptionSub =>
          ({ st2 with errorLog := st2.errorLog ++ [formatTraceback e.traceback] }, none)
      | .baseOnly => (st2, some e)

/-! ## `main` -/

/-- `os.path.join(tempfile.gettempdir(), "VSCode-Unreal-Python")`, with the
system temp directory taken to be `/tmp`. -/
def TEMP_FOLDERPATH : String := "/tmp/VSCode-Unreal-Python"

/-- The status-file base name. -/
def OUTPUT_FILENAME : String := "exec-out"

/-- Models
`os.path.join(TEMP_FOLDERPATH, f"{OUTPUT_FILENAME}-{command_id}.json")`. -/
def output_filepath (command_id : String) : String :=
  TEMP_FOLDERPATH ++ "/" ++ OUTPUT_FILENAME ++ "-" ++ command_id ++ ".json"

/-- An exception escaping from `main`: the I/O error raised by
`open(exec_file)`, or a `BaseException` propagating out of `execute_code`. -/
inductive MainError
  | fileReadError
  | escaped (e : RaisedExn)
deriving DecidableEq

/-- The namespace-setup prefix of `main`:

    exec_globals = get_exec_globals()
    exec_globals["__file__"] = exec_origin
    if name_var:
        exec_globals["__name__"] = name_var
    elif "__name__" in exec_globals:
        exec_globals.pop("__name__")

Note `if name_var:` is a truthiness test: both `None` and the empty string
take the `elif` branch. -/
def main_setup (st : HostState) (exec_origin : String) (name_var : Option String) :
    HostState :=
  let stns := get_exec_globals st
  let g1 := nsSet stns.2 "__file__" (.str exec_origin)
  let g2 :=
    match name_var with
    | some s =>
        if s == "" then
          if nsContains g1 "__name__" then nsPop g1 "__name__" else g1
        else nsSet g1 "__name__" (.str s)
    | none => if nsContains g1 "__name__" then nsPop g1 "__name__" else g1
  { stns.1 with vsCodeVars := some g2 }

/-- Models `main(exec_file, exec_origin, command_id, is_debugging, name_var)`.
`fileSystem` maps a path to the behaviour of the script text stored there
(`none`: `open`/`read` raises an I/O error).  `output_filepath` is computed
but unused: the code path writing it is commented out in the source, so the
module itself never writes a file.  The debug branch additionally wraps
`execute_code` in `UnrealLogRedirectDebugging`, which swaps and restores the
`unreal` logging slots (modelled separately below) and touches none of the
state tracked here. -/
def main (st : HostState) (fileSystem : String → Option Script)
    (exec_file exec_origin command_id : String) (is_debugging : Bool)
    (name_var : Option String) : HostState × Option MainError :=
  let st2 := main_setup st exec_origin name_var
  let ofp := output_filepath command_id
  match fileSystem exec_file with
  | none => (st2, some .fileReadError)
  | some script =>
      let st3 := { st2 with reads := st2.reads ++ [exec_file] }
      if is_debugging then
        let r := execute_code st3 script is_debugging
        (r.1, r.2.map .escaped)
      else
        let r := execute_code st3 script is_debugging
        (r.1, r.2.map .escaped)

/-- The state after `main` records the successful read of `exec_file`
(shorthand for the read-tracking update inside `main`). -/
def addRead (st : HostState) (f : String) : HostState :=
  { st with reads := st.reads ++ [f] }

/-! ## The `unreal` logging slots and `UnrealLogRedirectDebugging` -/

/-- A handle standing for a function stored in one of the `unreal` module's
logging slots.  Pre-existing handlers are abstract tags, so equality of
handles models Python object identity. -/
inductive LogFn
  | original (tag : Nat)
  | redirect
  | redirectError
  | redirectWarning
deriving DecidableEq

/-- The three reassignable logging entry points of the `unreal` module. -/
structure UnrealMod where
  log : LogFn
  log_error : LogFn
  log_warning : LogFn
deriving DecidableEq

/-- The `UnrealLogRedirectDebugging` instance: `__init__` captures the three
current handlers. -/
structure UnrealLogRedirectDebugging where
  original_log : LogFn
  original_log_error : LogFn
  original_log_warning : LogFn
deriving DecidableEq

/-- `UnrealLogRedirectDebugging.__init__`. -/
def UnrealLogRedirectDebugging.mkSelf (u : UnrealMod) : UnrealLogRedirectDebugging :=
  ⟨u.log, u.log_error, u.log_warning⟩

/-- `UnrealLogRedirectDebugging.__enter__`: install the redirect handlers. -/
def UnrealLogRedirectDebugging.enter (self : UnrealLogRedirectDebugging)
    (u : UnrealMod) : UnrealMod :=
  { u with log := .redirect, log_error := .redirectError,
           log_warning := .redirectWarning }

/-- `UnrealLogRedirectDebugging.__exit__`: restore the captured handlers. -/
def UnrealLogRedirectDebugging.exitRestore (self : UnrealLogRedirectDebugging)
    (u : UnrealMod) : UnrealMod :=
  { u with log := self.original_log, log_error := self.original_log_error,
           log_warning := self.original_log_warning }

/-- The `with UnrealLogRedirectDebugging(): body` block.  `body` may mutate
the slots itself and reports via its boolean whether it raised; `__exit__`
runs in both cases and any exception then propagates. -/
def withRedirectDebugging (u : UnrealMod) (body : UnrealMod → UnrealMod × Bool) :
    UnrealMod × Bool :=
  let self := UnrealLogRedirectDebugging.mkSelf u
  let u1 := self.enter u
  let r := body u1
  (self.exitRestore r.1, r.2)

/-! ## Character-level lemmas -/

theorem pyIsDigit_toNat {c : Char} (h : pyIsDigit c = true) :
    48 ≤ c.toNat ∧ c.toNat ≤ 57 := by
  simpa [pyIsDigit] using h

theorem pyLowerChar_of_digit {c : Char} (h : pyIsDigit c = true) :
    pyLowerChar c = c := by
  have hn := pyIsDigit_toNat h
  unfold pyLowerChar
  rw [if_neg (by omega)]

theorem digit_ne_comma {c : Char} (h : pyIsDigit c = true) : c ≠ ',' := by
  intro hc
  subst hc
  simp [pyIsDigit] at h

theorem toNat_ofNat_of_lt {n : Nat} (h : n < 55296) :
    (Char.ofNat n).toNat = n := by
  simp [Char.ofNat, Char.toNat, Nat.isValidChar, Char.ofNatAux,
    UInt32.toNat, BitVec.toNat_ofNatLt, h]

theorem pyLowerChar_ne_newline {c : Char} (h : c ≠ '\n') :
    pyLowerChar c ≠ '\n' := by
  unfold pyLowerChar
  split
  · rename_i hr
    intro heq
    have ht := toNat_ofNat_of_lt (n := c.toNat + 32) (by omega)
    rw [heq] at ht
    have h10 : ('\n' : Char).toNat = 10 := rfl
    rw [h10] at ht
    omega
  · exact h

theorem map_pyLowerChar_of_digits (d : List Char)
    (hd : ∀ c ∈ d, pyIsDigit c = true) : d.map pyLowerChar = d := by
  induction d with
  | nil => rfl
  | cons c t ih =>
      simp only [List.map_cons, pyLowerChar_of_digit (hd c (by simp))]
      rw [ih (fun x hx => hd x (by simp [hx]))]

/-! ## Prefix and substring lemmas -/

theorem isPrefixOf_append_self (l t : List Char) : l.isPrefixOf (l ++ t) = true := by
  induction l with
  | nil => simp [List.isPrefixOf]
  | cons c cs ih => simp [List.isPrefixOf, ih]

theorem containsSub_left (pat b : List Char) : containsSub pat (pat ++ b) = true := by
  cases pat with
  | nil =>
      cases b with
      | nil => rfl
      | cons c t => simp [containsSub, List.isPrefixOf]
  | cons c cs =>
      simp only [List.cons_append, containsSub]
      rw [Bool.or_eq_true]
      exact Or.inl (isPrefixOf_append_self (c :: cs) b)

theorem containsSub_append_left (a pat cs : List Char)
    (h : containsSub pat cs = true) : containsSub pat (a ++ cs) = true := by
  induction a with
  | nil => simpa
  | cons c t ih =>
      simp only [List.cons_append, containsSub]
      rw [Bool.or_eq_true]
      exact Or.inr ih

theorem containsSub_infix (pat a b : List Char) :
    containsSub pat (a ++ (pat ++ b)) = true :=
  containsSub_append_left a pat (pat ++ b) (containsSub_left pat b)

theorem dropWhile_append_of_all (p : Char → Bool) (a b : List Char)
    (h : ∀ c ∈ a, p c = true) : (a ++ b).dropWhile p = b.dropWhile p := by
  induction a with
  | nil => rfl
  | cons c t ih =>
      simp only [List.cons_append, List.dropWhile_cons, h c (by simp), if_true]
      exact ih (fun x hx => h x (by simp [hx]))

/-! ## Regex-matching lemmas -/

theorem closePart_holds (d rest : List Char)
    (hd : ∀ c ∈ d, pyIsDigit c = true) :
    closePart ("\", line ".data ++ (d ++ (", in ".data ++ rest))) = true := by
  unfold closePart
  rw [Bool.and_eq_true]
  refine ⟨isPrefixOf_append_self _ _, ?_⟩
  have h8 : ("\", line ".data).length = 8 := rfl
  rw [← h8, List.drop_left]
  rw [dropWhile_append_of_all pyIsDigit d _ hd]
  have : (", in ".data ++ rest).dropWhile pyIsDigit = ", in ".data ++ rest := by
    simp [List.dropWhile_cons, pyIsDigit]
  rw [this]
  exact isPrefixOf_append_self _ _

theorem matchMid_extend (mid rest : List Char) (hm : ∀ c ∈ mid, c ≠ '\n')
    (hc : closePart rest = true) : matchMid (mid ++ rest) = true := by
  induction mid with
  | nil =>
      cases rest with
      | nil => simpa [matchMid] using hc
      | cons r t => simp [matchMid, hc]
  | cons c t ih =>
      simp only [List.cons_append, matchMid]
      rw [Bool.or_eq_true]
      refine Or.inr ?_
      rw [Bool.and_eq_true]
      exact ⟨by simp [hm c (by simp)], ih (fun x hx => hm x (by simp [hx]))⟩

theorem matchHere_header (mid rest : List Char) (hm : ∀ c ∈ mid, c ≠ '\n')
    (hc : closePart rest = true) :
    matchHere ("file \"".data ++ (mid ++ rest)) = true := by
  unfold matchHere
  rw [Bool.and_eq_true]
  refine ⟨isPrefixOf_append_self _ _, ?_⟩
  have h6 : ("file \"".data).length = 6 := rfl
  rw [← h6, List.drop_left]
  exact matchMid_extend mid rest hm hc

theorem regexScan_of_matchHere (cs : List Char) (h : matchHere cs = true) :
    regexScan cs = true := by
  cases cs with
  | nil => simpa [regexScan] using h
  | cons c t => simp [regexScan, h]

theorem regexScan_append (a cs : List Char) (h : regexScan cs = true) :
    regexScan (a ++ cs) = true := by
  induction a with
  | nil => simpa
  | cons c t ih =>
      simp only [List.cons_append, regexScan]
      rw [Bool.or_eq_true]
      exact Or.inr ih

/-- The lowered form of a standard frame-header line matches the pattern. -/
theorem frameRegexSearch_header (p d sc : List Char)
    (hpn : ∀ c ∈ p, c ≠ '\n') (hd : ∀ c ∈ d, pyIsDigit c = true) :
    frameRegexSearch
      ("  File \"".data ++ (p ++ ("\", line ".data ++ (d ++ (", in ".data ++ sc)))))
      = true := by
  unfold frameRegexSearch
  simp only [List.map_append]
  have h1 : ("  File \"".data).map pyLowerChar = "  ".data ++ "file \"".data := by decide
  have h2 : ("\", line ".data).map pyLowerChar = "\", line ".data := by decide
  have h3 : (", in ".data).map pyLowerChar = ", in ".data := by decide
  rw [h1, h2, h3, map_pyLowerChar_of_digits d hd, List.append_assoc]
  apply regexScan_append
  apply regexScan_of_matchHere
  apply matchHere_header
  · intro c hc
    rcases List.mem_map.mp hc with ⟨c0, hc0, rfl⟩
    exact pyLowerChar_ne_newline (hpn c0 hc0)
  · exact closePart_holds d _ hd

/-! ## Split and header-rewrite lemmas -/

theorem breakComma_no_comma (a : List Char) (h : ∀ c ∈ a, c ≠ ',') :
    breakComma a = (a, none) := by
  induction a with
  | nil => rfl
  | cons c t ih =>
      simp only [breakComma, if_neg (h c (by simp))]
      rw [ih (fun x hx => h x (by simp [hx]))]

theorem breakComma_append (a b : List Char) (h : ∀ c ∈ a, c ≠ ',') :
    breakComma (a ++ ',' :: b) = (a, some b) := by
  induction a with
  | nil => simp [breakComma]
  | cons c t ih =>
      simp only [List.cons_append, breakComma, if_neg (h c (by simp)), List.append_eq]
      rw [ih (fun x hx => h x (by simp [hx]))]

theorem splitComma2_parts (a b c : List Char)
    (ha : ∀ x ∈ a, x ≠ ',') (hb : ∀ x ∈ b, x ≠ ',') :
    splitComma2 (a ++ ',' :: (b ++ ',' :: c)) = [a, b, c] := by
  unfold splitComma2
  rw [breakComma_append a _ ha]
  simp only
  rw [breakComma_append b c hb]

theorem intercalate_three (x y z : List Char) :
    List.intercalate [','] [x, y, z] = x ++ ',' :: (y ++ ',' :: z) := by
  simp [List.intercalate, List.intersperse]

/-- What the header rewrite produces on a standard frame-header line whose
path part contains no comma and whose line-number part is all digits. -/
theorem rewriteHeader_eq (p d sc : List Char)
    (hp : ∀ c ∈ p, c ≠ ',') (hd : ∀ c ∈ d, pyIsDigit c = true) :
    rewriteHeader
      ("  File \"".data ++ (p ++ ("\", line ".data ++ (d ++ (", in ".data ++ sc)))))
      = '"' :: (("  File \"".data ++ p) ++ ':' :: d ++ ['"'])
          ++ ',' :: ((" line ".data ++ d) ++ ',' :: (" in ".data ++ sc)) := by
  have hshape :
      "  File \"".data ++ (p ++ ("\", line ".data ++ (d ++ (", in ".data ++ sc))))
        = (("  File \"".data ++ p) ++ ['"']) ++ ',' :: ((" line ".data ++ d)
            ++ ',' :: (" in ".data ++ sc)) := by
    simp [List.append_assoc]
  have ha : ∀ x ∈ ("  File \"".data ++ p) ++ ['"'], x ≠ ',' := by
    intro x hx
    rcases List.mem_append.mp hx with hx | hx
    · rcases List.mem_append.mp hx with hx | hx
      · fin_cases hx <;> decide
      · exact hp x hx
    · simp only [List.mem_singleton] at hx
      subst hx
      decide
  have hb : ∀ x ∈ " line ".data ++ d, x ≠ ',' := by
    intro x hx
    rcases List.mem_append.mp hx with hx | hx
    · fin_cases hx <;> decide
    · exact digit_ne_comma (hd x hx)
  rw [hshape]
  unfold rewriteHeader
  rw [splitComma2_parts _ _ _ ha hb]
  simp only [List.getD_cons_succ, List.getD_cons_zero, List.drop_succ_cons,
    List.drop_zero]
  have hfilter : (" line ".data ++ d).filter pyIsDigit = d := by
    rw [List.filter_append]
    have h1 : (" line ".data).filter pyIsDigit = [] := by decide
    rw [h1, List.filter_eq_self.mpr hd, List.nil_append]
  rw [hfilter]
  rw [List.dropLast_concat]
  rw [intercalate_three]

/-- Full loop-body rewrite of a standard comma-free-path frame header. -/
theorem rewriteLineChars_header (p d sc : List Char)
    (hp : ∀ c ∈ p, c ≠ ',') (hpn : ∀ c ∈ p, c ≠ '\n')
    (hd : ∀ c ∈ d, pyIsDigit c = true) :
    rewriteLineChars
      ("  File \"".data ++ (p ++ ("\", line ".data ++ (d ++ (", in ".data ++ sc)))))
      = (("  File \"".data ++ p) ++ ':' :: d ++ ['"'])
          ++ ',' :: ((" line ".data ++ d) ++ ',' :: (" in ".data ++ sc)) := by
  unfold rewriteLineChars
  rw [if_pos (frameRegexSearch_header p d sc hpn hd)]
  rw [rewriteHeader_eq p d sc hp hd]
  simp [removeFirstQuote]

/-! ## First-quote removal lemmas -/

theorem removeFirstQuote_no_quote (l : List Char) (h : ∀ c ∈ l, c ≠ '"') :
    removeFirstQuote l = l := by
  induction l with
  | nil => rfl
  | cons c t ih =>
      simp only [removeFirstQuote, if_neg (h c (by simp))]
      rw [ih (fun x hx => h x (by simp [hx]))]

theorem removeFirstQuote_append (a b : List Char) (h : ∀ c ∈ a, c ≠ '"') :
    removeFirstQuote (a ++ '"' :: b) = a ++ b := by
  induction a with
  | nil => simp [removeFirstQuote]
  | cons c t ih =>
      simp only [List.cons_append, removeFirstQuote, if_neg (h c (by simp)),
        List.append_eq]
      rw [ih (fun x hx => h x (by simp [hx]))]

/-! ## Namespace (dict) lemmas -/

theorem nsLookup_set_self (ns : PyNamespace) (k : String) (v : PyVal) :
    nsLookup (nsSet ns k v) k = some v := by
  simp [nsLookup, nsSet, List.find?_cons_of_pos]

theorem find?_filter_ne (ns : PyNamespace) (k x : String) (h : x ≠ k) :
    (ns.filter (fun p => p.1 != k)).find? (fun p => p.1 == x)
      = ns.find? (fun p => p.1 == x) := by
  induction ns with
  | nil => rfl
  | cons p t ih =>
      by_cases hk : p.1 = k
      · have h1 : (p.1 != k) = false := by simp [hk]
        have h2 : (p.1 == x) = false := by
          simp only [beq_eq_false_iff_ne, ne_eq, hk]
          exact fun hh => h hh.symm
        simp [List.filter_cons, h1, List.find?_cons_of_neg, h2, ih]
      · have h1 : (p.1 != k) = true := by simp [hk]
        by_cases hx : p.1 = x
        · have h2 : (p.1 == x) = true := by simp [hx]
          simp [List.filter_cons, h1, List.find?_cons_of_pos, h2]
        · have h2 : (p.1 == x) = false := by simp [hx]
          simp [List.filter_cons, h1, List.find?_cons_of_neg, h2, ih]

theorem nsLookup_set_ne (ns : PyNamespace) (k x : String) (v : PyVal)
    (h : x ≠ k) : nsLookup (nsSet ns k v) x = nsLookup ns x := by
  unfold nsLookup nsSet
  have hk : (k == x) = false := by
    simp only [beq_eq_false_iff_ne, ne_eq]
    exact fun hh => h hh.symm
  rw [List.find?_cons_of_neg _ (by simp [hk])]
  rw [find?_filter_ne ns k x h]

theorem nsLookup_pop_self (ns : PyNamespace) (k : String) :
    nsLookup (nsPop ns k) k = none := by
  unfold nsLookup nsPop
  rw [List.find?_eq_none.mpr]
  · rfl
  · intro p hp hpk
    rcases List.mem_filter.mp hp with ⟨_, hne⟩
    simp only [bne_iff_ne, ne_eq] at hne
    exact hne (by simpa using hpk)

theorem nsLookup_pop_ne (ns : PyNamespace) (k x : String) (h : x ≠ k) :
    nsLookup (nsPop ns k) x = nsLookup ns x := by
  unfold nsLookup nsPop
  rw [find?_filter_ne ns k x h]

theorem nsLookup_of_not_contains (ns : PyNamespace) (k : String)
    (h : nsContains ns k = false) : nsLookup ns k = none := by
  unfold nsContains at h
  unfold nsLookup
  rw [List.find?_eq_none.mpr]
  · rfl
  · intro p hp
    have := List.any_eq_false.mp h p hp
    simpa using this

/-! ## State-threading lemmas -/

theorem get_exec_globals_of_some (st : HostState) (ns : PyNamespace)
    (h : st.vsCodeVars = some ns) : get_exec_globals st = (st, ns) := by
  simp [get_exec_globals, h]

theorem get_exec_globals_fst_errorLog (st : HostState) :
    (get_exec_globals st).1.errorLog = st.errorLog := by
  cases h : st.vsCodeVars <;> simp [get_exec_globals, h]

theorem get_exec_globals_fst_reads (st : HostState) :
    (get_exec_globals st).1.reads = st.reads := by
  cases h : st.vsCodeVars <;> simp [get_exec_globals, h]

theorem get_exec_globals_fst_writes (st : HostState) :
    (get_exec_globals st).1.writes = st.writes := by
  cases h : st.vsCodeVars <;> simp [get_exec_globals, h]

theorem currentGlobals_of_some (st : HostState) (ns : PyNamespace)
    (h : st.vsCodeVars = some ns) : currentGlobals st = ns := by
  simp [currentGlobals, get_exec_globals, h]

theorem currentGlobals_update (st : HostState) (g : PyNamespace) :
    currentGlobals { st with vsCodeVars := some g } = g := rfl

/-! ## `main_setup` lemmas -/

theorem main_setup_errorLog (st : HostState) (o : String) (nv : Option String) :
    (main_setup st o nv).errorLog = st.errorLog := by
  rw [show (main_setup st o nv).errorLog = (get_exec_globals st).1.errorLog from rfl]
  exact get_exec_globals_fst_errorLog st

theorem main_setup_reads (st : HostState) (o : String) (nv : Option String) :
    (main_setup st o nv).reads = st.reads := by
  rw [show (main_setup st o nv).reads = (get_exec_globals st).1.reads from rfl]
  exact get_exec_globals_fst_reads st

theorem main_setup_writes (st : HostState) (o : String) (nv : Option String) :
    (main_setup st o nv).writes = st.writes := by
  rw [show (main_setup st o nv).writes = (get_exec_globals st).1.writes from rfl]
  exact get_exec_globals_fst_writes st

theorem lookup_main_setup_file (st : HostState) (o : String) (nv : Option String) :
    nsLookup (currentGlobals (main_setup st o nv)) "__file__" = some (.str o) := by
  have hne : ("__file__" : String) ≠ "__name__" := by decide
  cases nv with
  | none =>
      simp only [main_setup, currentGlobals_update]
      split
      · rw [nsLookup_pop_ne _ _ _ hne, nsLookup_set_self]
      · rw [nsLookup_set_self]
  | some s =>
      simp only [main_setup, currentGlobals_update]
      split
      · split
        · rw [nsLookup_pop_ne _ _ _ hne, nsLookup_set_self]
        · rw [nsLookup_set_self]
      · rw [nsLookup_set_ne _ _ _ _ hne, nsLookup_set_self]

theorem lookup_main_setup_name_some (st : HostState) (o s : String) (h : s ≠ "") :
    nsLookup (currentGlobals (main_setup st o (some s))) "__name__"
      = some (.str s) := by
  simp only [main_setup, currentGlobals_update]
  rw [if_neg (by simp [h])]
  rw [nsLookup_set_self]

theorem lookup_main_setup_name_none (st : HostState) (o : String)
    (nv : Option String) (h : nv = none ∨ nv = some "") :
    nsLookup (currentGlobals (main_setup st o nv)) "__name__" = none := by
  rcases h with rfl | rfl
  · simp only [main_setup, currentGlobals_update]
    split
    · exact nsLookup_pop_self _ _
    · rename_i hc
      exact nsLookup_of_not_contains _ _ (by simpa using hc)
  · simp only [main_setup, currentGlobals_update]
    split
    · split
      · exact nsLookup_pop_self _ _
      · rename_i hc
        exact nsLookup_of_not_contains _ _ (by simpa using hc)
    · rename_i hs
      exact absurd (beq_self_eq_true "") hs

theorem lookup_main_setup_other (st : HostState) (o : String) (nv : Option String)
    (x : String) (h1 : x ≠ "__file__") (h2 : x ≠ "__name__") :
    nsLookup (currentGlobals (main_setup st o nv)) x
      = nsLookup (currentGlobals st) x := by
  cases nv with
  | none =>
      simp only [main_setup, currentGlobals_update]
      split
      · rw [nsLookup_pop_ne _ _ _ h2, nsLookup_set_ne _ _ _ _ h1]
        rfl
      · rw [nsLookup_set_ne _ _ _ _ h1]
        rfl
  | some s =>
      simp only [main_setup, currentGlobals_update]
      split
      · split
        · rw [nsLookup_pop_ne _ _ _ h2, nsLookup_set_ne _ _ _ _ h1]
          rfl
        · rw [nsLookup_set_ne _ _ _ _ h1]
          rfl
      · rw [nsLookup_set_ne _ _ _ _ h2, nsLookup_set_ne _ _ _ _ h1]
        rfl

/-! ## `execute_code` and `main` shape lemmas -/

theorem execute_code_ok (st : HostState) (script : Script) (dbg : Bool)
    (ns2 : PyNamespace) (h : script (currentGlobals st) = .ok ns2) :
    execute_code st script dbg
      = ({ (get_exec_globals st).1 with vsCodeVars := some ns2 }, none) := by
  simp only [execute_code]
  rw [show script (get_exec_globals st).2 = ExecResult.ok ns2 from h]

theorem execute_code_raised_exc (st : HostState) (script : Script) (dbg : Bool)
    (ns2 : PyNamespace) (tb : List String)
    (h : script (currentGlobals st) = .raised ns2 ⟨.exceptionSub, tb⟩) :
    execute_code st script dbg
      = ({ (get_exec_globals st).1 with
            vsCodeVars := some ns2,
            errorLog := (get_exec_globals st).1.errorLog ++ [formatTraceback tb] },
         none) := by
  simp only [execute_code]
  rw [show script (get_exec_globals st).2
        = ExecResult.raised ns2 ⟨.exceptionSub, tb⟩ from h]

theorem execute_code_raised_base (st : HostState) (script : Script) (dbg : Bool)
    (ns2 : PyNamespace) (tb : List String)
    (h : script (currentGlobals st) = .raised ns2 ⟨.baseOnly, tb⟩) :
    execute_code st script dbg
      = ({ (get_exec_globals st).1 with vsCodeVars := some ns2 },
         some ⟨.baseOnly, tb⟩) := by
  simp only [execute_code]
  rw [show script (get_exec_globals st).2
        = ExecResult.raised ns2 ⟨.baseOnly, tb⟩ from h]

theorem execute_code_fst_writes (st : HostState) (script : Script) (dbg : Bool) :
    (execute_code st script dbg).1.writes = st.writes := by
  simp only [execute_code]
  cases h : script (get_exec_globals st).2 with
  | ok ns2 => simp [get_exec_globals_fst_writes]
  | raised ns2 e =>
      rcases e with ⟨k, tb⟩
      cases k <;> simp [get_exec_globals_fst_writes]

theorem execute_code_fst_reads (st : HostState) (script : Script) (dbg : Bool) :
    (execute_code st script dbg).1.reads = st.reads := by
  simp only [execute_code]
  cases h : script (get_exec_globals st).2 with
  | ok ns2 => simp [get_exec_globals_fst_reads]
  | raised ns2 e =>
      rcases e with ⟨k, tb⟩
      cases k <;> simp [get_exec_globals_fst_reads]

theorem main_eq_none (st : HostState) (fs : String → Option Script)
    (f o c : String) (d : Bool) (nv : Option String) (h : fs f = none) :
    main st fs f o c d nv = (main_setup st o nv, some .fileReadError) := by
  unfold main
  rw [h]

theorem main_eq_some (st : HostState) (fs : String → Option Script)
    (f o c : String) (d : Bool) (nv : Option String) (script : Script)
    (h : fs f = some script) :
    main st fs f o c d nv =
      ((execute_code (addRead (main_setup st o nv) f) script d).1,
       (execute_code (addRead (main_setup st o nv) f) script d).2.map .escaped) := by
  unfold main
  rw [h]
  cases d <;> rfl

theorem main_fst_none (st : HostState) (fs : String → Option Script)
    (f o c : String) (d : Bool) (nv : Option String) (h : fs f = none) :
    (main st fs f o c d nv).1 = main_setup st o nv := by
  rw [main_eq_none st fs f o c d nv h]

theorem main_fst_some (st : HostState) (fs : String → Option Script)
    (f o c : String) (d : Bool) (nv : Option String) (script : Script)
    (h : fs f = some script) :
    (main st fs f o c d nv).1
      = (execute_code (addRead (main_setup st o nv) f) script d).1 := by
  rw [main_eq_some st fs f o c d nv script h]

theorem execute_code_ok_fst (st : HostState) (script : Script) (dbg : Bool)
    (ns2 : PyNamespace) (h : script (currentGlobals st) = .ok ns2) :
    (execute_code st script dbg).1
      = { (get_exec_globals st).1 with vsCodeVars := some ns2 } := by
  rw [execute_code_ok st script dbg ns2 h]

/-- Entries containing `execute_code` contribute nothing to the processed
traceback: filtering them away first changes nothing. -/
theorem filterMap_data_skip (tb : List String) :
    ((tb.filter (fun l => !(strContains "execute_code" l))).map
        String.data).filterMap processLineChars
      = (tb.map String.data).filterMap processLineChars := by
  induction tb with
  | nil => rfl
  | cons l t ih =>
      by_cases hc : strContains "execute_code" l = true
      · have hc' : containsSub "execute_code".data l.data = true := hc
        simp [List.filter_cons, hc, List.filterMap_cons, processLineChars, hc', ih]
      · have hc' : containsSub "execute_code".data l.data = false :=
          Bool.eq_false_iff.mpr hc
        simp [List.filter_cons, hc, List.filterMap_cons, processLineChars, hc', ih]

theorem formatTraceback_filter (tb : List String) :
    formatTraceback (tb.filter (fun l => !(strContains "execute_code" l)))
      = formatTraceback tb := by
  unfold formatTraceback
  rw [filterMap_data_skip]

/-! ## The claims -/

/-- C1, counterexample: `execute_code` does let an exception escape.  A script
raising an exception that is not a subclass of `Exception` (e.g. `SystemExit`)
is not caught by the `except Exception` clause: the exception propagates to
the caller and nothing is logged through the error channel, refuting the
claim that every failure is converted into a logged message. -/
theorem c1_counterexample :
    (execute_code initState
        (fun ns => .raised ns ⟨.baseOnly, ["SystemExit: 1\n"]⟩) false).2
      = some ⟨.baseOnly, ["SystemExit: 1\n"]⟩
    ∧ (execute_code initState
        (fun ns => .raised ns ⟨.baseOnly, ["SystemExit: 1\n"]⟩) false).1.errorLog
      = [] :=
  ⟨rfl, rfl⟩

/-- C1, amended: for every source text and filename, an exception raised
during compilation or execution that is a subclass of `Exception` never
escapes `execute_code` and is converted into one message logged through
`unreal.log_error`; exceptions that are not subclasses of `Exception`
(e.g. `SystemExit`, `KeyboardInterrupt`) escape to the caller with nothing
logged. -/
theorem c1_amended (st : HostState) (script : Script) (dbg : Bool)
    (ns2 : PyNamespace) (tb : List String) :
    (script (currentGlobals st) = .raised ns2 ⟨.exceptionSub, tb⟩ →
      (execute_code st script dbg).2 = none
      ∧ (execute_code st script dbg).1.errorLog
          = st.errorLog ++ [formatTraceback tb])
    ∧ (script (currentGlobals st) = .raised ns2 ⟨.baseOnly, tb⟩ →
      (execute_code st script dbg).2 = some ⟨.baseOnly, tb⟩
      ∧ (execute_code st script dbg).1.errorLog = st.errorLog) := by
  constructor
  · intro h
    rw [execute_code_raised_exc st script dbg ns2 tb h]
    exact ⟨rfl, by simp [get_exec_globals_fst_errorLog]⟩
  · intro h
    rw [execute_code_raised_base st script dbg ns2 tb h]
    exact ⟨rfl, by simp [get_exec_globals_fst_errorLog]⟩

/-- C1 witness: a concrete `Exception`-raising script is caught and logged. -/
theorem c1_witness :
    (execute_code initState
        (fun ns => .raised ns ⟨.exceptionSub, ["boom\n"]⟩) false).2 = none
    ∧ (execute_code initState
        (fun ns => .raised ns ⟨.exceptionSub, ["boom\n"]⟩) false).1.errorLog
      = initState.errorLog ++ [formatTraceback ["boom\n"]] :=
  (c1_amended initState (fun ns => .raised ns ⟨.exceptionSub, ["boom\n"]⟩) false
    (currentGlobals initState) ["boom\n"]).1 rfl

/-- C2, counterexample: a script raising an exception that is not a subclass
of `Exception` (e.g. `KeyboardInterrupt`) leaves the error channel empty:
`unreal.log_error` is called zero times, not exactly once. -/
theorem c2_counterexample :
    (execute_code initState
        (fun ns => .raised ns ⟨.baseOnly, ["KeyboardInterrupt\n"]⟩)
        false).1.errorLog.length ≠ 1 := by
  decide

/-- C2, amended: for every user script whose execution raises an exception
that is a subclass of `Exception`, `execute_code` calls `unreal.log_error`
exactly once, and every formatted-traceback entry containing the substring
`execute_code` — in particular every frame of the execution routine itself,
whose header reads `in execute_code` — contributes nothing to the logged
message, also for scripts whose own source lines or file paths contain that
substring. -/
theorem c2_amended (st : HostState) (script : Script) (dbg : Bool)
    (ns2 : PyNamespace) (tb : List String)
    (h : script (currentGlobals st) = .raised ns2 ⟨.exceptionSub, tb⟩) :
    (execute_code st script dbg).1.errorLog
        = st.errorLog ++ [formatTraceback tb]
    ∧ formatTraceback (tb.filter (fun l => !(strContains "execute_code" l)))
        = formatTraceback tb := by
  refine ⟨?_, formatTraceback_filter tb⟩
  rw [execute_code_raised_exc st script dbg ns2 tb h]
  simp [get_exec_globals_fst_errorLog]

/-- C2 witness at a concrete raising script. -/
theorem c2_witness :
    (execute_code initState
        (fun ns => .raised ns ⟨.exceptionSub, ["ValueError: x\n"]⟩)
        false).1.errorLog
      = initState.errorLog ++ [formatTraceback ["ValueError: x\n"]]
    ∧ formatTraceback
        ((["ValueError: x\n"]).filter (fun l => !(strContains "execute_code" l)))
      = formatTraceback ["ValueError: x\n"] :=
  c2_amended initState (fun ns => .raised ns ⟨.exceptionSub, ["ValueError: x\n"]⟩)
    false (currentGlobals initState) ["ValueError: x\n"] rfl

/-- C3, counterexample: for a frame-header line whose path contains a comma,
`line.split(",", 2)` splits inside the path, so the rewritten line does not
contain `<path>:<N>`: the header `File "a,b", line 3, in f` is mangled to
`File ":",b", line 3, in f`, which does not contain `a,b:3`. -/
theorem c3_counterexample :
    strContains ("a,b" ++ ":" ++ "3")
        (rewriteLine "  File \"a,b\", line 3, in f") = false
    ∧ rewriteLine "  File \"a,b\", line 3, in f"
        = "  File \":\",b\", line 3, in f" :=
  ⟨rfl, rfl⟩

/-- C3, amended: for every traceback frame-header line of the form
`  File "<path>", line <N>, in <scope>` whose path contains no comma and no
newline (digits in the path are fine), the rewritten line contains the
literal substring `<path>:<N>`. -/
theorem c3_amended (path ds scope : String)
    (hp1 : ∀ c ∈ path.data, c ≠ ',')
    (hp2 : ∀ c ∈ path.data, c ≠ '\n')
    (hds : ∀ c ∈ ds.data, pyIsDigit c = true) :
    strContains (path ++ ":" ++ ds)
      (rewriteLine ("  File \"" ++ path ++ "\", line " ++ ds ++ ", in " ++ scope))
      = true := by
  unfold strContains rewriteLine
  have hdata : ("  File \"" ++ path ++ "\", line " ++ ds ++ ", in " ++ scope).data
      = "  File \"".data ++ (path.data ++ ("\", line ".data
          ++ (ds.data ++ (", in ".data ++ scope.data)))) := by
    simp [List.append_assoc]
  rw [hdata]
  rw [rewriteLineChars_header path.data ds.data scope.data hp1 hp2 hds]
  have hpat : (path ++ ":" ++ ds).data = path.data ++ ([':'] ++ ds.data) := by
    simp
  rw [hpat]
  have hgoal := containsSub_infix (path.data ++ ([':'] ++ ds.data))
    ("  File \"".data)
    (['"'] ++ ',' :: ((" line ".data ++ ds.data)
        ++ ',' :: (" in ".data ++ scope.data)))
  simpa [List.append_assoc] using hgoal

/-- C3 witness: a concrete comma-free path. -/
theorem c3_witness :
    strContains ("myfile.py" ++ ":" ++ "5")
      (rewriteLine ("  File \"" ++ "myfile.py" ++ "\", line " ++ "5"
          ++ ", in " ++ "<module>")) = true :=
  c3_amended "myfile.py" "5" "<module>" (by decide) (by decide) (by decide)

/-- C4: for every script whose execution raises no exception, `execute_code`
returns normally (no escaping exception) and `unreal.log_error` is never
called: the error channel is exactly as before. -/
theorem c4_no_error_on_success (st : HostState) (script : Script) (dbg : Bool)
    (ns2 : PyNamespace) (h : script (currentGlobals st) = .ok ns2) :
    (execute_code st script dbg).2 = none
    ∧ (execute_code st script dbg).1.errorLog = st.errorLog := by
  rw [execute_code_ok st script dbg ns2 h]
  exact ⟨rfl, by simp [get_exec_globals_fst_errorLog]⟩

/-- C4 witness at a concrete non-raising script. -/
theorem c4_witness :
    (execute_code initState (fun ns => .ok ns) false).2 = none
    ∧ (execute_code initState (fun ns => .ok ns) false).1.errorLog
      = initState.errorLog :=
  c4_no_error_on_success initState (fun ns => .ok ns) false
    (currentGlobals initState) rfl

/-- C5: the shared namespace is created at most once and reused: whenever the
`__VsCodeVariables__` entry already exists, `get_exec_globals` returns that
very namespace and leaves the state unchanged; and a variable bound in the
namespace by the script of one `main` invocation is still bound, with the
same value, in the namespace that a following invocation's setup presents to
its script. -/
theorem c5_namespace_persistence (st : HostState) (x : String) (v : PyVal)
    (f1 o1 o2 c1 : String) (d1 : Bool) (nv1 nv2 : Option String)
    (hx1 : x ≠ "__file__") (hx2 : x ≠ "__name__") :
    (∀ (st' : HostState) (ns : PyNamespace), st'.vsCodeVars = some ns →
        get_exec_globals st' = (st', ns))
    ∧ nsLookup (currentGlobals (main_setup
        (main st (fun _ => some (fun ns => .ok (nsSet ns x v))) f1 o1 c1 d1 nv1).1
        o2 nv2)) x = some v := by
  constructor
  · intro st' ns h
    simp [get_exec_globals, h]
  · rw [main_fst_some st _ f1 o1 c1 d1 nv1 (fun ns => .ok (nsSet ns x v)) rfl]
    rw [execute_code_ok_fst (addRead (main_setup st o1 nv1) f1)
      (fun ns => ExecResult.ok (nsSet ns x v)) d1
      (nsSet (currentGlobals (addRead (main_setup st o1 nv1) f1)) x v) rfl]
    rw [lookup_main_setup_other _ o2 nv2 x hx1 hx2]
    rw [currentGlobals_update]
    exact nsLookup_set_self _ x v

/-- C5 witness: a concrete variable persists across two invocations. -/
theorem c5_witness :
    (∀ (st' : HostState) (ns : PyNamespace), st'.vsCodeVars = some ns →
        get_exec_globals st' = (st', ns))
    ∧ nsLookup (currentGlobals (main_setup
        (main initState
          (fun _ => some (fun ns => .ok (nsSet ns "counter" (.str "1"))))
          "a.py" "o1.py" "id1" false none).1
        "o2.py" none)) "counter" = some (.str "1") :=
  c5_namespace_persistence initState "counter" (.str "1") "a.py" "o1.py" "o2.py"
    "id1" false none none (by decide) (by decide)

/-- C6, counterexample: `main`'s setup tests `if name_var:`, a truthiness
test, so supplying the empty string as `name_var` removes the `__name__`
binding instead of setting it to `""`: after an earlier call supplied
`"m"`, a later call supplying `""` leaves no `__name__` binding. -/
theorem c6_counterexample :
    nsLookup (currentGlobals (main_setup initState "o1" (some "m"))) "__name__"
      = some (.str "m")
    ∧ nsLookup (currentGlobals
        (main_setup (main_setup initState "o1" (some "m")) "o2" (some "")))
        "__name__" = none :=
  ⟨rfl, rfl⟩

/-- C6, amended: before execution `main` sets the namespace's `__file__`
binding to `exec_origin`; it sets `__name__` to `name_var` when a non-empty
one is supplied; and when `name_var` is omitted — or supplied as the empty
string, which Python's truthiness test treats the same way — the namespace
contains no `__name__` binding after the call's setup. -/
theorem c6_amended (st : HostState) (o : String) (nv : Option String) :
    nsLookup (currentGlobals (main_setup st o nv)) "__file__" = some (.str o)
    ∧ (∀ s, nv = some s → s ≠ "" →
        nsLookup (currentGlobals (main_setup st o nv)) "__name__"
          = some (.str s))
    ∧ ((nv = none ∨ nv = some "") →
        nsLookup (currentGlobals (main_setup st o nv)) "__name__" = none) := by
  refine ⟨lookup_main_setup_file st o nv, ?_, ?_⟩
  · intro s hnv hs
    subst hnv
    exact lookup_main_setup_name_some st o s hs
  · intro h
    exact lookup_main_setup_name_none st o nv h

/-- C6 witness at concrete setup arguments. -/
theorem c6_witness :
    nsLookup (currentGlobals (main_setup initState "origin.py" (some "mod")))
        "__file__" = some (.str "origin.py")
    ∧ nsLookup (currentGlobals (main_setup initState "origin.py" (some "mod")))
        "__name__" = some (.str "mod") :=
  ⟨(c6_amended initState "origin.py" (some "mod")).1,
   (c6_amended initState "origin.py" (some "mod")).2.1 "mod" rfl (by decide)⟩

/-- C7: for every use of the `UnrealLogRedirectDebugging` scoped block,
whether the body exits normally or via an exception (and even if the body
itself reassigns the slots), after exit the three `unreal` logging entry
points are identical to the values they held before entry. -/
theorem c7_restores_handlers (u : UnrealMod)
    (body : UnrealMod → UnrealMod × Bool) :
    (withRedirectDebugging u body).1 = u := rfl

/-- C8, counterexample: `line.replace('"', "", 1)` removes the first quote
anywhere in the line, not only a leading one: the retained non-header line
`ValueError: a"b` does not start with a quote, yet its interior quote is
removed. -/
theorem c8_counterexample :
    rewriteLine "ValueError: a\"b" = "ValueError: ab"
    ∧ "ValueError: a\"b" ≠ "ValueError: ab"
    ∧ frameRegexSearch ("ValueError: a\"b").data = false
    ∧ ("ValueError: a\"b").data.head? ≠ some '"' := by
  refine ⟨rfl, by decide, rfl, by decide⟩

/-- C8, amended: for every retained line the loop removes the first quote
character found anywhere in the line — exactly one, and none when the line
contains no quote — after the optional frame-header rewrite (whose rewritten
lines start with the quote the rewrite itself added). -/
theorem c8_amended :
    (∀ a b : List Char, (∀ c ∈ a, c ≠ '"') →
        removeFirstQuote (a ++ '"' :: b) = a ++ b)
    ∧ (∀ l : List Char, (∀ c ∈ l, c ≠ '"') → removeFirstQuote l = l)
    ∧ (∀ s : String, frameRegexSearch s.data = false →
        rewriteLine s = ⟨removeFirstQuote s.data⟩) := by
  refine ⟨removeFirstQuote_append, removeFirstQuote_no_quote, ?_⟩
  intro s h
  unfold rewriteLine rewriteLineChars
  rw [if_neg (by simp [h])]

/-- C8 witness at concrete lines. -/
theorem c8_witness :
    removeFirstQuote ("ab".data ++ '"' :: "cd".data) = "ab".data ++ "cd".data
    ∧ removeFirstQuote "xy".data = "xy".data
    ∧ rewriteLine "plain text" = ⟨removeFirstQuote "plain text".data⟩ :=
  ⟨c8_amended.1 "ab".data "cd".data (by decide),
   c8_amended.2.1 "xy".data (by decide),
   c8_amended.2.2 "plain text" (by decide)⟩

/-- C9: no invocation of `main` writes a file: the status-file path
`<temp>/VSCode-Unreal-Python/exec-out-<id>.json` is computed from
`command_id`, but the module's only file-system effect is reading
`exec_file` (when it is readable); the output-writing code path is
commented out. -/
theorem c9_no_status_file_write (st : HostState) (fs : String → Option Script)
    (f o c : String) (d : Bool) (nv : Option String) :
    (main st fs f o c d nv).1.writes = st.writes
    ∧ (main st fs f o c d nv).1.reads
        = st.reads ++ (match fs f with | none => [] | some _ => [f])
    ∧ output_filepath c
        = TEMP_FOLDERPATH ++ "/" ++ OUTPUT_FILENAME ++ "-" ++ c ++ ".json" := by
  refine ⟨?_, ?_, rfl⟩
  · cases hfs : fs f with
    | none =>
        rw [main_fst_none st fs f o c d nv hfs]
        exact main_setup_writes st o nv
    | some script =>
        rw [main_fst_some st fs f o c d nv script hfs]
        rw [execute_code_fst_writes]
        rw [show (addRead (main_setup st o nv) f).writes
          = (main_setup st o nv).writes from rfl]
        exact main_setup_writes st o nv
  · cases hfs : fs f with
    | none =>
        rw [main_fst_none st fs f o c d nv hfs]
        simp [main_setup_reads]
    | some script =>
        rw [main_fst_some st fs f o c d nv script hfs]
        rw [execute_code_fst_reads]
        rw [show (addRead (main_setup st o nv) f).reads
          = (main_setup st o nv).reads ++ [f] from rfl]
        rw [main_setup_reads]

/-- C10 (implicit): when `open(exec_file)` fails, `main` raises the I/O
error to its caller uncaught, nothing is logged through the error channel,
and the shared namespace's `__file__`/`__name__` setup has already happened
and is not rolled back. -/
theorem c10_read_failure (st : HostState) (fs : String → Option Script)
    (f o c : String) (d : Bool) (nv : Option String) (h : fs f = none) :
    main st fs f o c d nv = (main_setup st o nv, some .fileReadError)
    ∧ (main_setup st o nv).errorLog = st.errorLog
    ∧ nsLookup (currentGlobals (main_setup st o nv)) "__file__" = some (.str o)
    ∧ (nv = none →
        nsLookup (currentGlobals (main_setup st o nv)) "__name__" = none) :=
  ⟨main_eq_none st fs f o c d nv h, main_setup_errorLog st o nv,
   lookup_main_setup_file st o nv,
   fun hnv => lookup_main_setup_name_none st o nv (Or.inl hnv)⟩

/-- C10 witness at a concrete unreadable file. -/
theorem c10_witness :
    main initState (fun _ => none) "missing.py" "origin.py" "id7" false none
        = (main_setup initState "origin.py" none, some .fileReadError)
    ∧ (main_setup initState "origin.py" none).errorLog = initState.errorLog
    ∧ nsLookup (currentGlobals (main_setup initState "origin.py" none))
        "__file__" = some (.str "origin.py")
    ∧ ((none : Option String) = none →
        nsLookup (currentGlobals (main_setup initState "origin.py" none))
          "__name__" = none) :=
  c10_read_failure initState (fun _ => none) "missing.py" "origin.py" "id7"
    false none rfl

end VscodeExecute
